import Mathlib

/-!
Verification of the ESP32 + DHT11 + Ollama gateway/firmware repository.

Shallow embedding of `gateway/main.py` and `firmware/main.py`:
Python floats are modelled as rationals (ℚ), outbound HTTP calls as
oracle values describing the single observable outcome of the call,
and JSON parsing of a response body as an `Option`-style outcome.
-/

namespace DhtGateway

/-- Pydantic model `SensorReading` (gateway/main.py lines 27-31).
Field validation is delegated to the HTTP framework, so the structure
itself carries plain rational fields. -/
structure SensorReading where
  temperature_c : ℚ
  humidity : ℚ
  outside_temp_c : Option ℚ := none
  outside_humidity : Option ℚ := none
deriving DecidableEq

/-- The range constraints declared on `SensorReading` fields
(`ge`/`le` bounds of the pydantic `Field` declarations). -/
def SensorReading.valid (r : SensorReading) : Bool :=
  decide (-40 ≤ r.temperature_c) && decide (r.temperature_c ≤ 85) &&
  decide (0 ≤ r.humidity) && decide (r.humidity ≤ 100) &&
  (match r.outside_temp_c with
   | none => true
   | some v => decide (-60 ≤ v) && decide (v ≤ 60)) &&
  (match r.outside_humidity with
   | none => true
   | some v => decide (0 ≤ v) && decide (v ≤ 100))

/-- Python `round` at one decimal place: round half to even on the
scaled value (idealised over ℚ, as Python rounds IEEE doubles). -/
def pyRoundHalfEven (q : ℚ) : ℤ :=
  if q - ⌊q⌋ = 1/2 then (if ⌊q⌋ % 2 = 0 then ⌊q⌋ else ⌊q⌋ + 1) else round q

/-- `round(x, 1)` from `describe` (gateway/main.py lines 132-133). -/
def round1 (q : ℚ) : ℚ := (pyRoundHalfEven (10 * q) : ℚ) / 10

/-- Outcome of the enrichment fetch as observed by `describe`:
`some (t, h)` when `_fetch_outside_temp_and_humidity()` returns a pair,
`none` when it returns `None` ("unavailable"). -/
abbrev FetchOutcome := Option (ℚ × ℚ)

/-- The enrichment step of `describe` (gateway/main.py lines 126-135).
`lat`/`lon` are the `OPENMETEO_LAT`/`OPENMETEO_LON` strings; Python
string truthiness makes the location configured iff both are non-empty.
The returned Bool records whether the fetch function was called. -/
def enrichStep (lat lon : String) (fetch : FetchOutcome) (r : SensorReading) :
    SensorReading × Bool :=
  if r.outside_temp_c = none ∧ r.outside_humidity = none ∧ lat ≠ "" ∧ lon ≠ "" then
    match fetch with
    | some (t, h) =>
      ({ r with outside_temp_c := some (round1 t), outside_humidity := some (round1 h) }, true)
    | none => (r, true)
  else (r, false)

/-- Rendering of a float value inside an f-string (abstract but fixed). -/
def fmtQ (q : ℚ) : String := toString q

def insideTempLine (t : ℚ) : String := "Inside temperature: " ++ fmtQ t ++ "°C"

def humidityLine (h : ℚ) : String := "Humidity: " ++ fmtQ h ++ "%"

def outsideTempLine (v : ℚ) : String := "Outside temperature: " ++ fmtQ v ++ "°C"

def compareInstr : String := "Compare it with the outside temperature in Celsius."

def mentionInstr : String := "Mention the outside conditions in comparison to the indoor conditions."

/-- The list `lines` built by `build_prompt` (gateway/main.py lines 68-83). -/
def promptLines (r : SensorReading) : List String :=
  ["You are a home weather assistant.", "", insideTempLine r.temperature_c,
   humidityLine r.humidity]
  ++ (match r.outside_temp_c with
      | some v => [outsideTempLine v]
      | none => [])
  ++ ["",
      "Write ONE friendly sentence describing the indoor conditions. The temperature is given in Celsius.",
      (match r.outside_temp_c with
       | none => ""
       | some _ => compareInstr),
      (match r.outside_humidity with
       | none => ""
       | some _ => mentionInstr),
      "Avoid emojis. Be concise. Sound human."]

/-- `build_prompt` (gateway/main.py line 84): `"\n".join(lines)`. -/
def build_prompt (r : SensorReading) : String :=
  String.intercalate "\n" (promptLines r)

/-- Outcome of parsing an HTTP response body as JSON:
either a decode failure (with the exception message) or a parsed
object together with the value of its generated-text field. -/
inductive JsonParse where
  | failed (msg : String)
  | parsed (field : Option String)
deriving DecidableEq

/-- The observable outcome of the single HTTP POST issued by
`call_ollama`: a transport failure (timeout / connection error, with
the exception message) or a response with status code, body text and
the parse outcome of that body. -/
inductive OllamaAttempt where
  | transportFail (msg : String)
  | response (status : Nat) (body : String) (json : JsonParse)
deriving DecidableEq

/-- The ways `call_ollama` can raise (gateway/main.py lines 89-104):
`httpx` transport exceptions, `HTTPStatusError` from
`raise_for_status`, a JSON decode error from `r.json()`, or the
`ValueError` for an empty generated text. -/
inductive OllamaError where
  | transport (msg : String)
  | httpStatus (status : Nat) (body : String)
  | jsonDecode (msg : String)
  | empty
deriving DecidableEq

/-- `httpx.Response.is_success`: status in the 2xx range.
`raise_for_status` raises exactly when this is false. -/
def is2xx (st : Nat) : Bool := decide (200 ≤ st) && decide (st < 300)

/-- Python `str.strip()`: remove leading and trailing whitespace
(implemented on the character list so that it evaluates by `rfl`). -/
def pyStrip (s : String) : String :=
  ⟨((s.data.dropWhile Char.isWhitespace).reverse.dropWhile Char.isWhitespace).reverse⟩

/-- `call_ollama` (gateway/main.py lines 89-104) as a function of the
outcome of its one HTTP attempt. `data.get("response") or ""` maps a
missing (or empty) field to `""`; `.strip()` is `pyStrip`. The
source makes exactly one attempt, which is why the model consumes a
single `OllamaAttempt`. -/
def call_ollama : OllamaAttempt → Except OllamaError String
  | .transportFail m => .error (.transport m)
  | .response st body j =>
    if is2xx st then
      match j with
      | .failed m => .error (.jsonDecode m)
      | .parsed field =>
        let t := pyStrip (field.getD "")
        if t = "" then .error .empty else .ok t
    else .error (.httpStatus st body)

/-- HTTP-level result of the `/describe` handler: `success d` is a 200
response with body `{"description": d}`; `failure st detail` is an
`HTTPException(status_code=st, detail=detail)`. -/
inductive DescribeResponse where
  | success (description : String)
  | failure (status : Nat) (detail : String)
deriving DecidableEq

/-- The message `str(e)` of each exception `call_ollama` can raise, as
interpolated by `f"Ollama unavailable: {e!s}"`. -/
def ollamaErrMessage : OllamaError → String
  | .transport m => m
  | .httpStatus _ body => body
  | .jsonDecode m => m
  | .empty => "Ollama returned empty response"

/-- The `/describe` handler (gateway/main.py lines 118-146): optional
enrichment, prompt build, inference call, and error mapping. The
enrichment fetch and the inference attempt outcomes are oracles. -/
def describe (lat lon : String) (fetch : FetchOutcome) (attempt : OllamaAttempt)
    (r : SensorReading) : DescribeResponse :=
  let enriched := (enrichStep lat lon fetch r).1
  let _prompt := build_prompt enriched
  match call_ollama attempt with
  | .ok text => .success text
  | .error (.httpStatus _ body) => .failure 502 ("Ollama error: " ++ body)
  | .error e => .failure 502 ("Ollama unavailable: " ++ ollamaErrMessage e)

/-- Outcome of the weather API GET issued by
`_fetch_outside_temp_and_humidity` when it reaches the network:
`ok t h` is a 2xx response whose JSON carries the two current fields;
`fail` covers every exception caught by the bare `except Exception`
(network error, timeout, non-2xx from `raise_for_status`, JSON decode
error, missing key, float conversion). -/
inductive NetResult where
  | ok (temp humidity : ℚ)
  | fail (msg : String)
deriving DecidableEq

/-- The freshness test inlined at gateway/main.py lines 44-45:
the cached entry `(temp, humidity, fetched_at)` is returned iff
`now - fetched_at < ttl` (the spec's `get_if_fresh`). -/
def get_if_fresh (cache : Option (ℚ × ℚ × ℚ)) (now ttl : ℚ) : Option (ℚ × ℚ) :=
  match cache with
  | some (t, h, ts) => if now - ts < ttl then some (t, h) else none
  | none => none

/-- The cache write at gateway/main.py line 58 (the spec's `put`). -/
def put (t h now : ℚ) : Option (ℚ × ℚ × ℚ) := some (t, h, now)

/-- `_fetch_outside_temp_and_humidity` (gateway/main.py lines 38-63).
Returns (result, new cache state, whether a network call was issued).
`ttl` is `OUTSIDE_TEMP_CACHE_SECONDS`; the `if _cached_outside:` guard
on the failure path is truthiness of a 3-tuple, i.e. `isSome`. -/
def fetchOutside (lat lon : String) (cache : Option (ℚ × ℚ × ℚ)) (now ttl : ℚ)
    (net : NetResult) : Option (ℚ × ℚ) × Option (ℚ × ℚ × ℚ) × Bool :=
  if lat = "" ∨ lon = "" then (none, cache, false)
  else
    match get_if_fresh cache now ttl with
    | some p => (some p, cache, false)
    | none =>
      match net with
      | .ok t h => (some (t, h), put t h now, true)
      | .fail _ =>
        match cache with
        | some (t, h, _) => (some (t, h), cache, true)
        | none => (none, cache, true)

end DhtGateway

namespace DhtFirmware

/-- Outcome of `json.loads(body)` on a gateway response body:
`notJson` when it raises `ValueError`, `obj d` when it yields an
object whose optional `"description"` entry is `d`. -/
inductive BodyParse where
  | notJson
  | obj (description : Option String)
deriving DecidableEq

/-- Result of one `http_post_json` call (firmware/main.py lines 44-55):
`oserr` is the `OSError` path (returns `(None, str(e))`), `ok` is a
response with status code, body text, and the body's parse outcome. -/
inductive PostResult where
  | oserr (msg : String)
  | ok (code : Nat) (body : String) (parsed : BodyParse)
deriving DecidableEq

/-- `HTTP_RETRIES` (firmware/main.py line 38). -/
def HTTP_RETRIES : Nat := 2

/-- The body of the `code == 200` branch of `send_to_gateway`
(firmware/main.py lines 153-163): `out.get("description", body)` on a
parsed object, `return None` on `ValueError`. -/
def handle200 (body : String) : BodyParse → Option String
  | .obj d => some (d.getD body)
  | .notJson => none

/-- Does this attempt outcome have status 200? -/
def is200 : PostResult → Bool
  | .oserr _ => false
  | .ok code _ _ => decide (code = 200)

/-- The retry loop of `send_to_gateway` (firmware/main.py lines
148-170), unrolled over the remaining attempt budget. `oracle i` is
the outcome of attempt number `i`. Returns the function result, the
number of attempts actually made, and the list of `time.sleep`
durations executed (one `0.5` before every attempt but the first). -/
def sendRun (oracle : Nat → PostResult) (idx : Nat) : Nat → Option String × Nat × List ℚ
  | 0 => (none, 0, [])
  | rem + 1 =>
    let sl : List ℚ := if idx = 0 then [] else [1/2]
    match oracle idx with
    | .ok code body parsed =>
      if code = 200 then (handle200 body parsed, 1, sl)
      else
        let r := sendRun oracle (idx + 1) rem
        (r.1, r.2.1 + 1, sl ++ r.2.2)
    | .oserr _ =>
      let r := sendRun oracle (idx + 1) rem
      (r.1, r.2.1 + 1, sl ++ r.2.2)

/-- `send_to_gateway` (firmware/main.py lines 145-170): at most
`HTTP_RETRIES + 1` attempts. -/
def send_to_gateway (oracle : Nat → PostResult) : Option String × Nat × List ℚ :=
  sendRun oracle 0 (HTTP_RETRIES + 1)

/-- The per-cycle firmware state carried across iterations of `main`
(firmware/main.py lines 185-187). -/
structure AgentState where
  last_temp_c : Option ℚ
  last_humidity : Option ℚ
  last_description : Option String
deriving DecidableEq

/-- Arguments of the `display_update` call issued at the end of a send
cycle (firmware/main.py line 205). -/
structure DisplayCall where
  temp_c : ℚ
  humidity : ℚ
  description : Option String
deriving DecidableEq

/-- One successful-sample send cycle of the main loop (firmware/main.py
lines 198-206): record the new reading, update the description only
when `send_to_gateway` returned one, then refresh the display. -/
def cycleStep (st : AgentState) (t h : ℚ) (sendResult : Option String) :
    AgentState × DisplayCall :=
  let desc := match sendResult with
    | some d => some d
    | none => st.last_description
  ({ last_temp_c := some t, last_humidity := some h, last_description := desc },
   { temp_c := t, humidity := h, description := desc })

/-- Python `text.split()`: maximal runs of non-whitespace characters.
`cur` accumulates the current word in reverse. -/
def splitWordsAux (cur : List Char) : List Char → List (List Char)
  | [] => if cur.isEmpty then [] else [cur.reverse]
  | c :: cs =>
    if c.isWhitespace then
      if cur.isEmpty then splitWordsAux [] cs else cur.reverse :: splitWordsAux [] cs
    else splitWordsAux (c :: cur) cs

def splitWords (text : List Char) : List (List Char) := splitWordsAux [] text

/-- The first loop of `wrap_text` (firmware/main.py lines 77-84):
greedy word filling; `cur` is `lines[-1]`, a joined word is
`lines[-1] += " " + word`. -/
def fillWords (cols : Nat) (cur : List Char) : List (List Char) → List (List Char)
  | [] => [cur]
  | w :: ws =>
    if cur.length + 1 + w.length ≤ cols then fillWords cols (cur ++ ' ' :: w) ws
    else cur :: fillWords cols w ws

def greedyLines (cols : Nat) : List (List Char) → List (List Char)
  | [] => []
  | w :: ws => fillWords cols w ws

/-- The `while len(line) > cols` loop of `wrap_text` (firmware/main.py
lines 88-92), with a fuel argument to make recursion structural (for
`cols = 0` the source loop never terminates on a non-empty line with
no leading whitespace; for `cols ≥ 1` a fuel of `line.length` is
enough and the equations below agree with the source). -/
def hardSplitF (cols : Nat) : Nat → List Char → List (List Char)
  | 0, line => if line.isEmpty then [] else [line]
  | fuel + 1, line =>
    if cols < line.length then
      line.take cols :: hardSplitF cols fuel ((line.drop cols).dropWhile Char.isWhitespace)
    else if line.isEmpty then [] else [line]

/-- One iteration body of the second loop of `wrap_text`: strings are
modelled as lists of characters (`line[:cols]`, `line[cols:]` and
`.lstrip()` are `take`, `drop` and `dropWhile isWhitespace`). -/
def hardSplit (cols : Nat) (line : List Char) : List (List Char) :=
  hardSplitF cols line.length line

/-- `wrap_text` (firmware/main.py lines 74-93). -/
def wrap_text (text : List Char) (cols : Nat) : List (List Char) :=
  ((greedyLines cols (splitWords text)).map (hardSplit cols)).flatten

end DhtFirmware


namespace DhtGateway

/-- Two strings with different first characters are different. -/
theorem ne_head {s t : String} {c d : Char} (hs : s.data.head? = some c)
    (ht : t.data.head? = some d) (hcd : c ≠ d) : s ≠ t := by
  intro h
  subst h
  rw [hs] at ht
  exact hcd (Option.some.inj ht)

/-- C1: for every inbound validated `SensorReading`, `describe` calls the
outside-weather fetch iff both `outside_temp_c` and `outside_humidity` are
absent and a location is configured; on a successful fetch it proceeds with
a new reading carrying the fetched values rounded to one decimal place, and
on "unavailable" it proceeds with the reading unmodified. -/
theorem enrich_gate_iff (lat lon : String) (fetch : FetchOutcome) (r : SensorReading)
    (_hv : r.valid = true) :
    ((enrichStep lat lon fetch r).2 = true ↔
      (r.outside_temp_c = none ∧ r.outside_humidity = none ∧ lat ≠ "" ∧ lon ≠ "")) ∧
    (∀ t h, fetch = some (t, h) →
      r.outside_temp_c = none → r.outside_humidity = none → lat ≠ "" → lon ≠ "" →
      (enrichStep lat lon fetch r).1 =
        { r with outside_temp_c := some (round1 t), outside_humidity := some (round1 h) }) ∧
    (fetch = none → (enrichStep lat lon fetch r).1 = r) := by
  refine ⟨?_, ?_, ?_⟩
  · unfold enrichStep
    split
    case isTrue hgate =>
      cases fetch with
      | none => simpa using hgate
      | some p =>
        obtain ⟨a, b⟩ := p
        simpa using hgate
    case isFalse hgate => simpa using hgate
  · intro a b hf h1 h2 h3 h4
    subst hf
    unfold enrichStep
    rw [if_pos ⟨h1, h2, h3, h4⟩]
  · intro hf
    subst hf
    unfold enrichStep
    split <;> rfl

/-- Witness for `enrich_gate_iff` at a concrete reading and fetch result. -/
theorem enrich_gate_iff_witness :
    (enrichStep "52.09083" "5.12222" (some (193/10, 5551/100))
        ⟨45/2, 41, none, none⟩).1 =
      ⟨45/2, 41, some (round1 (193/10)), some (round1 (5551/100))⟩ ∧
    (enrichStep "52.09083" "5.12222" none ⟨45/2, 41, none, none⟩).1 =
      ⟨45/2, 41, none, none⟩ :=
  ⟨(enrich_gate_iff "52.09083" "5.12222" (some (193/10, 5551/100)) ⟨45/2, 41, none, none⟩
      (by norm_num [SensorReading.valid])).2.1 (193/10) (5551/100) rfl rfl rfl
      (by decide) (by decide),
   (enrich_gate_iff "52.09083" "5.12222" none ⟨45/2, 41, none, none⟩
      (by norm_num [SensorReading.valid])).2.2 rfl⟩

/-- C6: whenever the weather GET is actually issued and fails, the fetch
function does not raise: it returns the cached pair regardless of the
entry's age when one exists, `none` otherwise, and leaves the cache as is. -/
theorem weather_fetch_failure_fallback (lat lon : String) (hlat : lat ≠ "")
    (hlon : lon ≠ "") (cache : Option (ℚ × ℚ × ℚ)) (now ttl msg : _)
    (hstale : get_if_fresh cache now ttl = none) :
    fetchOutside lat lon cache now ttl (.fail msg) =
      ((cache.map fun e => (e.1, e.2.1)), cache, true) := by
  unfold fetchOutside
  rw [if_neg (not_or.mpr ⟨hlat, hlon⟩), hstale]
  cases cache with
  | none => rfl
  | some e =>
    obtain ⟨a, b, c⟩ := e
    rfl

/-- Witness for `weather_fetch_failure_fallback`: a stale entry survives a
failing fetch, and an empty cache yields "unavailable". -/
theorem weather_fetch_failure_fallback_witness :
    fetchOutside "52.09083" "5.12222" (some (18, 60, 100)) 1000 300 (.fail "timeout") =
      (some (18, 60), some (18, 60, 100), true) ∧
    fetchOutside "52.09083" "5.12222" none 1000 300 (.fail "timeout") =
      (none, none, true) :=
  ⟨weather_fetch_failure_fallback "52.09083" "5.12222" (by decide) (by decide)
      (some (18, 60, 100)) 1000 300 "timeout"
      (by
        show (if (1000 : ℚ) - 100 < 300 then some ((18 : ℚ), (60 : ℚ)) else none) = none
        rw [if_neg (by norm_num)]),
   weather_fetch_failure_fallback "52.09083" "5.12222" (by decide) (by decide)
      none 1000 300 "timeout" rfl⟩

/-- C7: a `put` followed by a freshness check hits exactly when the age
`now - fetched_at` is strictly below the TTL (hence for any positive TTL
immediately after the write), misses once the age reaches the TTL, and a
fresh entry makes the fetch return it with no network call and no cache
modification. -/
theorem cache_freshness_contract (t h t0 now ttl : ℚ) :
    (get_if_fresh (put t h t0) now ttl =
      if now - t0 < ttl then some (t, h) else none) ∧
    (0 < ttl → get_if_fresh (put t h t0) t0 ttl = some (t, h)) ∧
    (ttl ≤ now - t0 → get_if_fresh (put t h t0) now ttl = none) ∧
    (∀ lat lon net, lat ≠ "" → lon ≠ "" → now - t0 < ttl →
      fetchOutside lat lon (put t h t0) now ttl net = (some (t, h), put t h t0, false)) := by
  refine ⟨rfl, ?_, ?_, ?_⟩
  · intro httl
    show (if t0 - t0 < ttl then some (t, h) else none) = some (t, h)
    exact if_pos (by simpa using httl)
  · intro hge
    show (if now - t0 < ttl then some (t, h) else none) = none
    exact if_neg (not_lt.mpr hge)
  · intro lat lon net hlat hlon hfresh
    have hf : get_if_fresh (put t h t0) now ttl = some (t, h) := by
      show (if now - t0 < ttl then some (t, h) else none) = some (t, h)
      exact if_pos hfresh
    unfold fetchOutside
    rw [if_neg (not_or.mpr ⟨hlat, hlon⟩), hf]

/-- Witness for `cache_freshness_contract`: hit at age 0, miss at age 400
with TTL 300, and a fresh hit short-circuits the network. -/
theorem cache_freshness_contract_witness :
    get_if_fresh (put 20 50 0) 0 300 = some (20, 50) ∧
    get_if_fresh (put 20 50 0) 400 300 = none ∧
    fetchOutside "52.09083" "5.12222" (put 20 50 0) 100 300 (.fail "down") =
      (some (20, 50), put 20 50 0, false) :=
  ⟨(cache_freshness_contract 20 50 0 0 300).2.1 (by norm_num),
   (cache_freshness_contract 20 50 0 400 300).2.2.1 (by norm_num),
   (cache_freshness_contract 20 50 0 100 300).2.2.2 "52.09083" "5.12222" (.fail "down")
     (by decide) (by decide) (by norm_num)⟩

end DhtGateway

namespace DhtGateway

/-- The failure condition asserted by claim C3, transcribed from its
words: the call fails iff the HTTP attempt times out or cannot
connect, or the status is non-2xx, or the status is 2xx but the
generated-text field is empty or whitespace after trimming. -/
def ollamaClaimFailCond : OllamaAttempt → Bool
  | .transportFail _ => true
  | .response st _ j =>
    !(is2xx st) ||
    (match j with
     | .failed _ => false
     | .parsed field => decide ((field.getD "").trim = ""))

/-- The amended failure condition: as claimed, plus the case of a 2xx
response whose body does not parse as JSON (so there is no
generated-text field at all and `r.json()` raises). -/
def ollamaFailCond : OllamaAttempt → Bool
  | .transportFail _ => true
  | .response st _ j =>
    !(is2xx st) ||
    (match j with
     | .failed _ => true
     | .parsed field => decide (pyStrip (field.getD "") = ""))

/-- C3 counterexample: a 2xx response whose body is not valid JSON
makes `call_ollama` fail (the `r.json()` exception propagates), yet
none of the failure conditions enumerated by the claim holds there. -/
theorem call_ollama_failure_conditions_cex :
    (∃ e, call_ollama (.response 200 "plain text" (.failed "Expecting value")) = .error e) ∧
    ollamaClaimFailCond (.response 200 "plain text" (.failed "Expecting value")) = false :=
  ⟨⟨.jsonDecode "Expecting value", rfl⟩, rfl⟩

/-- C3 amended: `call_ollama` makes exactly one attempt (the model
consumes a single attempt outcome) and fails iff the attempt is a
transport failure, or the status is non-2xx (the body is carried as
the error detail), or the 2xx body is not valid JSON, or the trimmed
generated-text field is empty; on a 2xx response with parsed JSON and
non-whitespace generated text it returns that text trimmed. -/
theorem call_ollama_failure_conditions_amended (a : OllamaAttempt) :
    ((∃ e, call_ollama a = .error e) ↔ ollamaFailCond a = true) ∧
    (∀ st body f, a = .response st body (.parsed f) → is2xx st = true →
      pyStrip (f.getD "") ≠ "" → call_ollama a = .ok (pyStrip (f.getD ""))) ∧
    (∀ st body j, a = .response st body j → is2xx st = false →
      call_ollama a = .error (.httpStatus st body)) ∧
    (∀ m, a = .transportFail m → call_ollama a = .error (.transport m)) := by
  refine ⟨?_, ?_, ?_, ?_⟩
  · cases a with
    | transportFail m => simp [call_ollama, ollamaFailCond]
    | response st body j =>
      by_cases h2 : is2xx st = true
      · cases j with
        | failed m => simp [call_ollama, ollamaFailCond, h2]
        | parsed f =>
          by_cases he : pyStrip (f.getD "") = ""
          · simp [call_ollama, ollamaFailCond, h2, he]
          · simp [call_ollama, ollamaFailCond, h2, he]
      · rw [Bool.not_eq_true] at h2
        cases j with
        | failed m => simp [call_ollama, ollamaFailCond, h2]
        | parsed f => simp [call_ollama, ollamaFailCond, h2]
  · intro st body f ha h2 he
    subst ha
    simp [call_ollama, h2, he]
  · intro st body j ha h2
    subst ha
    simp [call_ollama, h2]
  · intro m ha
    subst ha
    rfl

/-- Witness for `call_ollama_failure_conditions_amended`: a 503
carries its body as error detail, and a 2xx with text succeeds. -/
theorem call_ollama_failure_conditions_amended_witness :
    call_ollama (.response 503 "model busy" (.parsed none)) =
      .error (.httpStatus 503 "model busy") ∧
    call_ollama (.response 200 "raw" (.parsed (some " Cozy inside. "))) =
      .ok "Cozy inside." :=
  ⟨(call_ollama_failure_conditions_amended (.response 503 "model busy" (.parsed none))).2.2.1
      503 "model busy" (.parsed none) rfl (by decide),
   (call_ollama_failure_conditions_amended
      (.response 200 "raw" (.parsed (some " Cozy inside. ")))).2.1
      200 "raw" (some " Cozy inside. ") rfl (by decide) (by decide)⟩

/-- C4: whenever the inference call fails, `describe` returns a 502,
with detail `"Ollama error: <upstream body>"` for an upstream non-2xx
status and `"Ollama unavailable: <message>"` for every other failure;
on success it returns the 200 body `{"description": text}`. -/
theorem describe_error_mapping (lat lon : String) (fetch : FetchOutcome)
    (a : OllamaAttempt) (r : SensorReading) :
    (∀ e, call_ollama a = .error e → ∃ d, describe lat lon fetch a r = .failure 502 d) ∧
    (∀ st body, call_ollama a = .error (.httpStatus st body) →
      describe lat lon fetch a r = .failure 502 ("Ollama error: " ++ body)) ∧
    (∀ m, call_ollama a = .error (.transport m) →
      describe lat lon fetch a r = .failure 502 ("Ollama unavailable: " ++ m)) ∧
    (∀ m, call_ollama a = .error (.jsonDecode m) →
      describe lat lon fetch a r = .failure 502 ("Ollama unavailable: " ++ m)) ∧
    (call_ollama a = .error .empty →
      describe lat lon fetch a r =
        .failure 502 ("Ollama unavailable: " ++ "Ollama returned empty response")) ∧
    (∀ text, call_ollama a = .ok text → describe lat lon fetch a r = .success text) := by
  refine ⟨?_, ?_, ?_, ?_, ?_, ?_⟩
  · intro e he
    unfold describe
    rw [he]
    cases e <;> exact ⟨_, rfl⟩
  · intro st body he
    unfold describe
    rw [he]
  · intro m he
    unfold describe
    rw [he]
    rfl
  · intro m he
    unfold describe
    rw [he]
    rfl
  · intro he
    unfold describe
    rw [he]
    rfl
  · intro text he
    unfold describe
    rw [he]

/-- Witness for `describe_error_mapping`: concrete transport failure,
upstream 503, empty response, and success cases. -/
theorem describe_error_mapping_witness :
    describe "52.09083" "5.12222" none (.transportFail "connection refused")
        ⟨45/2, 41, none, none⟩ =
      .failure 502 ("Ollama unavailable: " ++ "connection refused") ∧
    describe "52.09083" "5.12222" none (.response 503 "overloaded" (.parsed none))
        ⟨45/2, 41, none, none⟩ =
      .failure 502 ("Ollama error: " ++ "overloaded") ∧
    describe "52.09083" "5.12222" none (.response 200 "" (.parsed (some "")))
        ⟨45/2, 41, none, none⟩ =
      .failure 502 ("Ollama unavailable: " ++ "Ollama returned empty response") ∧
    describe "52.09083" "5.12222" none (.response 200 "" (.parsed (some "It's cozy inside.")))
        ⟨45/2, 41, none, none⟩ =
      .success "It's cozy inside." :=
  ⟨(describe_error_mapping "52.09083" "5.12222" none (.transportFail "connection refused")
      ⟨45/2, 41, none, none⟩).2.2.1 "connection refused" rfl,
   (describe_error_mapping "52.09083" "5.12222" none (.response 503 "overloaded" (.parsed none))
      ⟨45/2, 41, none, none⟩).2.1 503 "overloaded" rfl,
   (describe_error_mapping "52.09083" "5.12222" none (.response 200 "" (.parsed (some "")))
      ⟨45/2, 41, none, none⟩).2.2.2.2.1 rfl,
   (describe_error_mapping "52.09083" "5.12222" none
      (.response 200 "" (.parsed (some "It's cozy inside.")))
      ⟨45/2, 41, none, none⟩).2.2.2.2.2 "It's cozy inside." rfl⟩

end DhtGateway

namespace DhtFirmware

/-- Unfolding `sendRun` when the attempt at `idx` returns HTTP 200:
the loop stops with the parsed result after this single attempt. -/
theorem sendRun_stop (oracle : Nat → PostResult) (idx rem : Nat) (body : String)
    (p : BodyParse) (h : oracle idx = .ok 200 body p) :
    sendRun oracle idx (rem + 1) =
      (handle200 body p, 1, if idx = 0 then [] else [(1:ℚ)/2]) := by
  simp [sendRun, h]

/-- Unfolding `sendRun` when the attempt at `idx` is not an HTTP 200:
the loop retries at `idx + 1` with one fewer remaining attempt. -/
theorem sendRun_continue (oracle : Nat → PostResult) (idx rem : Nat)
    (h : is200 (oracle idx) = false) :
    sendRun oracle idx (rem + 1) =
      ((sendRun oracle (idx + 1) rem).1, (sendRun oracle (idx + 1) rem).2.1 + 1,
       (if idx = 0 then [] else [(1:ℚ)/2]) ++ (sendRun oracle (idx + 1) rem).2.2) := by
  rcases ho : oracle idx with m | ⟨code, body, p⟩
  · simp [sendRun, ho]
  · have hc : ¬ code = 200 := by
      intro hcc
      subst hcc
      rw [ho] at h
      simp [is200] at h
    simp [sendRun, ho, hc]

/-- `sendRun` makes at most `rem` attempts and sleeps `0.5` exactly
before every attempt except a first attempt at index 0. -/
theorem sendRun_bound (oracle : Nat → PostResult) :
    ∀ rem idx, (sendRun oracle idx rem).2.1 ≤ rem ∧
      (sendRun oracle idx rem).2.2 =
        List.replicate ((sendRun oracle idx rem).2.1 - (if idx = 0 then 1 else 0))
          ((1:ℚ)/2) := by
  intro rem
  induction rem with
  | zero =>
    intro idx
    constructor <;> simp [sendRun]
  | succ n ih =>
    intro idx
    by_cases h200 : is200 (oracle idx) = true
    · rcases ho : oracle idx with m | ⟨code, body, p⟩
      · rw [ho] at h200
        simp [is200] at h200
      · rw [ho] at h200
        simp only [is200, decide_eq_true_eq] at h200
        subst h200
        rw [sendRun_stop oracle idx n body p ho]
        refine ⟨by simp, ?_⟩
        by_cases hidx : idx = 0 <;> simp [hidx]
    · rw [Bool.not_eq_true] at h200
      rw [sendRun_continue oracle idx n h200]
      obtain ⟨ih1, ih2⟩ := ih (idx + 1)
      have hz : (if idx + 1 = 0 then 1 else 0) = 0 := by simp
      rw [hz, Nat.sub_zero] at ih2
      refine ⟨by simpa using Nat.succ_le_succ ih1, ?_⟩
      simp only []
      rw [ih2]
      by_cases hidx : idx = 0 <;> simp [hidx, List.replicate_succ]

/-- When none of the `rem` attempts starting at `idx` returns 200, the
loop returns `none` after making all `rem` attempts. -/
theorem sendRun_all_fail (oracle : Nat → PostResult) :
    ∀ rem idx, (∀ k, k < rem → is200 (oracle (idx + k)) = false) →
      (sendRun oracle idx rem).1 = none ∧ (sendRun oracle idx rem).2.1 = rem := by
  intro rem
  induction rem with
  | zero =>
    intro idx _
    exact ⟨rfl, rfl⟩
  | succ n ih =>
    intro idx hall
    have h0 : is200 (oracle idx) = false := by simpa using hall 0 (Nat.succ_pos n)
    rw [sendRun_continue oracle idx n h0]
    obtain ⟨ih1, ih2⟩ := ih (idx + 1) (fun k hk => by
      have e : idx + 1 + k = idx + (k + 1) := by omega
      rw [e]
      exact hall (k + 1) (by omega))
    exact ⟨by simpa using ih1, by simp [ih2]⟩

/-- When attempt `idx + i` is the first 200 among the attempts starting
at `idx`, the loop returns its parsed result after `i + 1` attempts. -/
theorem sendRun_first200 (oracle : Nat → PostResult) :
    ∀ rem idx i body p, i < rem → (∀ k, k < i → is200 (oracle (idx + k)) = false) →
      oracle (idx + i) = .ok 200 body p →
      (sendRun oracle idx rem).1 = handle200 body p ∧
      (sendRun oracle idx rem).2.1 = i + 1 := by
  intro rem
  induction rem with
  | zero =>
    intro idx i body p hi hprev hok
    exact absurd hi (Nat.not_lt_zero i)
  | succ n ih =>
    intro idx i body p hi hprev hok
    cases i with
    | zero =>
      rw [Nat.add_zero] at hok
      rw [sendRun_stop oracle idx n body p hok]
      exact ⟨rfl, rfl⟩
    | succ j =>
      have h0 : is200 (oracle idx) = false := by simpa using hprev 0 (Nat.succ_pos j)
      rw [sendRun_continue oracle idx n h0]
      have hprev2 : ∀ k, k < j → is200 (oracle (idx + 1 + k)) = false := fun k hk => by
        have e : idx + 1 + k = idx + (k + 1) := by omega
        rw [e]
        exact hprev (k + 1) (by omega)
      have hok2 : oracle (idx + 1 + j) = .ok 200 body p := by
        have e : idx + 1 + j = idx + (j + 1) := by omega
        rw [e]
        exact hok
      obtain ⟨a, b⟩ := ih (idx + 1) j body p (by omega) hprev2 hok2
      exact ⟨by simpa using a, by simp [b]⟩

/-- A gateway that answers 200 with a body that is not JSON. -/
def c5Oracle : Nat → PostResult := fun _ => .ok 200 "plain text" .notJson

/-- C5 counterexample: on an HTTP 200 whose body is not JSON,
`send_to_gateway` returns `None` — the raw body is not used as the
description, the attempt is a failure, and the displayed description
does not update. -/
theorem send_200_body_handling_cex :
    (send_to_gateway c5Oracle).1 = none ∧
    (send_to_gateway c5Oracle).1 ≠ some "plain text" ∧
    (cycleStep ⟨some 20, some 50, some "old"⟩ 21 52
        (send_to_gateway c5Oracle).1).1.last_description = some "old" :=
  ⟨rfl, by simp [show (send_to_gateway c5Oracle).1 = none from rfl], rfl⟩

/-- C5 amended: on an HTTP 200 the firmware parses the body as JSON
and extracts the description field, falling back to the raw body only
when the parsed object has no description key; when the body is not
JSON it returns `None` (a failed attempt, no description update). -/
theorem send_200_body_handling_amended (oracle : Nat → PostResult) (body : String)
    (p : BodyParse) (h : oracle 0 = .ok 200 body p) :
    (send_to_gateway oracle).1 = handle200 body p ∧
    (∀ d, p = .obj d → (send_to_gateway oracle).1 = some (d.getD body)) ∧
    (p = .notJson → (send_to_gateway oracle).1 = none) ∧
    (∀ st t hum d, p = .obj d →
      (cycleStep st t hum (send_to_gateway oracle).1).1.last_description =
        some (d.getD body)) := by
  have hs : send_to_gateway oracle = (handle200 body p, 1, []) := by
    unfold send_to_gateway
    rw [sendRun_stop oracle 0 HTTP_RETRIES body p h]
    rfl
  rw [hs]
  refine ⟨rfl, ?_, ?_, ?_⟩
  · intro d hp
    subst hp
    rfl
  · intro hp
    subst hp
    rfl
  · intro st t hum d hp
    subst hp
    rfl

/-- Witness for `send_200_body_handling_amended` at a 200 response
whose JSON body carries a description. -/
theorem send_200_body_handling_amended_witness :
    (send_to_gateway (fun _ => .ok 200 "{}" (.obj (some "Nice and warm.")))).1 =
      some "Nice and warm." :=
  (send_200_body_handling_amended (fun _ => .ok 200 "{}" (.obj (some "Nice and warm.")))
    "{}" (.obj (some "Nice and warm.")) rfl).2.1 (some "Nice and warm.") rfl

/-- A gateway that answers 200 with a non-JSON body on every attempt. -/
def c8Oracle : Nat → PostResult := fun _ => .ok 200 "oops" .notJson

/-- C8 counterexample: an attempt among the three returns HTTP 200,
yet `send_to_gateway` returns `None` (no description, no display
update), because the 200 body is not JSON. -/
theorem send_retry_contract_cex :
    is200 (c8Oracle 0) = true ∧
    (send_to_gateway c8Oracle).1 = none ∧
    (cycleStep ⟨some 20, some 50, some "previous"⟩ 22 47
        (send_to_gateway c8Oracle).1).1.last_description = some "previous" :=
  ⟨rfl, rfl, rfl⟩

/-- C8 amended: each send cycle makes at most `HTTP_RETRIES + 1 = 3`
attempts with a fixed 0.5 s sleep before every retry; if attempt `i`
is the first to return HTTP 200 the loop stops there with that body's
parsed description (`None` when the body is not JSON); if all three
attempts fail it returns `None`; a `None` result keeps the previous
description while the new temperature and humidity are displayed, and
a returned description updates the display. -/
theorem send_retry_contract_amended (oracle : Nat → PostResult) :
    (send_to_gateway oracle).2.1 ≤ HTTP_RETRIES + 1 ∧
    (send_to_gateway oracle).2.2 =
      List.replicate ((send_to_gateway oracle).2.1 - 1) ((1:ℚ)/2) ∧
    ((∀ i, i < HTTP_RETRIES + 1 → is200 (oracle i) = false) →
      (send_to_gateway oracle).1 = none ∧
      (send_to_gateway oracle).2.1 = HTTP_RETRIES + 1) ∧
    (∀ i body p, i < HTTP_RETRIES + 1 → (∀ k, k < i → is200 (oracle k) = false) →
      oracle i = .ok 200 body p →
      (send_to_gateway oracle).1 = handle200 body p ∧
      (send_to_gateway oracle).2.1 = i + 1) ∧
    (∀ st t hum, (cycleStep st t hum none).1.last_description = st.last_description ∧
      (cycleStep st t hum none).2.temp_c = t ∧
      (cycleStep st t hum none).2.humidity = hum ∧
      (cycleStep st t hum none).2.description = st.last_description) ∧
    (∀ st t hum s, (cycleStep st t hum (some s)).1.last_description = some s) := by
  obtain ⟨b1, b2⟩ := sendRun_bound oracle (HTTP_RETRIES + 1) 0
  refine ⟨b1, by simpa using b2, ?_, ?_, ?_, ?_⟩
  · intro hall
    exact sendRun_all_fail oracle (HTTP_RETRIES + 1) 0 (fun k hk => by simpa using hall k hk)
  · intro i body p hi hprev hok
    exact sendRun_first200 oracle (HTTP_RETRIES + 1) 0 i body p hi
      (fun k hk => by simpa using hprev k hk) (by simpa using hok)
  · intro st t hum
    exact ⟨rfl, rfl, rfl, rfl⟩
  · intro st t hum s
    rfl

/-- A gateway that fails twice with a transport error, then succeeds. -/
def c8WitnessOracle : Nat → PostResult := fun i =>
  if i < 2 then .oserr "ECONNRESET" else .ok 200 "{}" (.obj (some "All good."))

/-- Witness for `send_retry_contract_amended`: two failures then a
success on the third attempt yields the description in 3 attempts. -/
theorem send_retry_contract_amended_witness :
    (send_to_gateway c8WitnessOracle).1 = some "All good." ∧
    (send_to_gateway c8WitnessOracle).2.1 = 3 :=
  (send_retry_contract_amended c8WitnessOracle).2.2.2.1 2 "{}" (.obj (some "All good."))
    (by decide) (by decide) rfl

/-- C10: on HTTP 200 with a JSON body that has no description key,
`send_to_gateway` returns the raw body as the description and the
attempt counts as a success (the displayed description updates). -/
theorem send_json_without_description (oracle : Nat → PostResult) (body : String)
    (h : oracle 0 = .ok 200 body (.obj none)) :
    (send_to_gateway oracle).1 = some body ∧
    (∀ st t hum, (cycleStep st t hum (send_to_gateway oracle).1).1.last_description =
      some body) := by
  have hs : send_to_gateway oracle = (some body, 1, []) := by
    unfold send_to_gateway
    rw [sendRun_stop oracle 0 HTTP_RETRIES body (.obj none) h]
    rfl
  rw [hs]
  exact ⟨rfl, fun st t hum => rfl⟩

/-- Witness for `send_json_without_description`. -/
theorem send_json_without_description_witness :
    (send_to_gateway (fun _ => .ok 200 "raw body text" (.obj none))).1 =
      some "raw body text" :=
  (send_json_without_description (fun _ => .ok 200 "raw body text" (.obj none))
    "raw body text" rfl).1

end DhtFirmware

namespace DhtGateway

/-- C2: each instruction line of `build_prompt` is gated only by its
own field's presence: the outside-temperature line and the comparison
instruction appear iff `outside_temp_c` is present, and the
outside-humidity mention appears iff `outside_humidity` is present. -/
theorem prompt_instruction_gating (r : SensorReading) (_hv : r.valid = true) :
    (compareInstr ∈ promptLines r ↔ r.outside_temp_c.isSome = true) ∧
    ((∃ v, r.outside_temp_c = some v ∧ outsideTempLine v ∈ promptLines r) ↔
      r.outside_temp_c.isSome = true) ∧
    (mentionInstr ∈ promptLines r ↔ r.outside_humidity.isSome = true) := by
  obtain ⟨tc, hu, ot, oh⟩ := r
  have hCI : ∀ x : ℚ, compareInstr ≠ insideTempLine x := fun x => ne_head rfl rfl (by decide)
  have hCH : ∀ x : ℚ, compareInstr ≠ humidityLine x := fun x => ne_head rfl rfl (by decide)
  have hMI : ∀ x : ℚ, mentionInstr ≠ insideTempLine x := fun x => ne_head rfl rfl (by decide)
  have hMH : ∀ x : ℚ, mentionInstr ≠ humidityLine x := fun x => ne_head rfl rfl (by decide)
  have hMO : ∀ x : ℚ, mentionInstr ≠ outsideTempLine x := fun x => ne_head rfl rfl (by decide)
  have kC1 : compareInstr ≠ "You are a home weather assistant." := by decide
  have kC2 : compareInstr ≠ "" := by decide
  have kC3 : compareInstr ≠ "Write ONE friendly sentence describing the indoor conditions. The temperature is given in Celsius." := by decide
  have kC4 : compareInstr ≠ "Avoid emojis. Be concise. Sound human." := by decide
  have kC5 : compareInstr ≠ mentionInstr := by decide
  have kM1 : mentionInstr ≠ "You are a home weather assistant." := by decide
  have kM2 : mentionInstr ≠ "" := by decide
  have kM3 : mentionInstr ≠ "Write ONE friendly sentence describing the indoor conditions. The temperature is given in Celsius." := by decide
  have kM4 : mentionInstr ≠ "Avoid emojis. Be concise. Sound human." := by decide
  have kM5 : mentionInstr ≠ compareInstr := by decide
  refine ⟨?_, ?_, ?_⟩
  · cases ot with
    | some v =>
      constructor
      · intro _
        rfl
      · intro _
        simp [promptLines]
    | none =>
      constructor
      · intro hmem
        exfalso
        cases oh with
        | none =>
          simp only [promptLines, List.mem_append, List.mem_cons, List.not_mem_nil,
            or_false, List.nil_append, kC1, kC2, kC3, kC4, hCI tc, hCH hu,
            or_self, false_or] at hmem
        | some w =>
          simp only [promptLines, List.mem_append, List.mem_cons, List.not_mem_nil,
            or_false, List.nil_append, kC1, kC2, kC3, kC4, kC5, hCI tc, hCH hu,
            or_self, false_or] at hmem
      · intro hsome
        exact absurd hsome (by simp)
  · cases ot with
    | some v =>
      constructor
      · intro _
        rfl
      · intro _
        exact ⟨v, rfl, by simp [promptLines]⟩
    | none =>
      constructor
      · rintro ⟨v, hv, _⟩
        exact absurd hv (by simp)
      · intro hsome
        exact absurd hsome (by simp)
  · cases oh with
    | some w =>
      constructor
      · intro _
        rfl
      · intro _
        cases ot <;> simp [promptLines]
    | none =>
      constructor
      · intro hmem
        exfalso
        cases ot with
        | none =>
          simp only [promptLines, List.mem_append, List.mem_cons, List.not_mem_nil,
            or_false, List.nil_append, kM1, kM2, kM3, kM4, hMI tc, hMH hu,
            or_self, false_or] at hmem
        | some v =>
          simp only [promptLines, List.mem_append, List.mem_cons, List.not_mem_nil,
            or_false, List.nil_append, List.mem_singleton, kM1, kM2, kM3, kM4, kM5,
            hMI tc, hMH hu, hMO v, or_self, false_or] at hmem
      · intro hsome
        exact absurd hsome (by simp)

/-- Witness for `prompt_instruction_gating` at a reading with an
outside temperature but no outside humidity. -/
theorem prompt_instruction_gating_witness :
    compareInstr ∈ promptLines ⟨45/2, 41, some 19, none⟩ ∧
    mentionInstr ∉ promptLines ⟨45/2, 41, some 19, none⟩ := by
  have h := prompt_instruction_gating ⟨45/2, 41, some 19, none⟩
    (by norm_num [SensorReading.valid])
  exact ⟨h.1.mpr rfl, fun hm => by simpa using h.2.2.mp hm⟩

end DhtGateway

namespace DhtFirmware

/-- Dropping a whitespace prefix does not lengthen a line. -/
theorem length_dropWhile_ws_le (p : Char → Bool) : ∀ l : List Char,
    (l.dropWhile p).length ≤ l.length := by
  intro l
  induction l with
  | nil => simp
  | cons c cs ih =>
    by_cases h : p c
    · rw [List.dropWhile_cons_of_pos h]
      exact le_trans ih (by simp)
    · rw [List.dropWhile_cons_of_neg h]

/-- Every chunk produced by the hard-split loop, run with enough fuel,
is non-empty and at most `cols` long (for `cols ≥ 1`). -/
theorem hardSplitF_sound (cols : Nat) (hc : 1 ≤ cols) :
    ∀ fuel line, line.length ≤ fuel →
      ∀ s ∈ hardSplitF cols fuel line, s ≠ [] ∧ s.length ≤ cols := by
  intro fuel
  induction fuel with
  | zero =>
    intro line hl s hs
    have hnil : line = [] := List.eq_nil_of_length_eq_zero (Nat.le_zero.mp hl)
    subst hnil
    simp [hardSplitF] at hs
  | succ n ih =>
    intro line hl s hs
    simp only [hardSplitF] at hs
    by_cases hlen : cols < line.length
    · rw [if_pos hlen] at hs
      rcases List.mem_cons.mp hs with rfl | hs2
      · have hslen : (line.take cols).length = cols := by
          rw [List.length_take]
          omega
        constructor
        · exact List.length_pos.mp (by omega)
        · omega
      · refine ih ((line.drop cols).dropWhile Char.isWhitespace) ?_ s hs2
        calc ((line.drop cols).dropWhile Char.isWhitespace).length
            ≤ (line.drop cols).length := length_dropWhile_ws_le _ _
          _ = line.length - cols := List.length_drop cols line
          _ ≤ n := by omega
    · rw [if_neg hlen] at hs
      by_cases hemp : line.isEmpty
      · rw [if_pos hemp] at hs
        simp at hs
      · rw [if_neg hemp] at hs
        rcases List.mem_singleton.mp hs with rfl
        refine ⟨?_, by omega⟩
        intro hnil
        subst hnil
        simp at hemp

/-- C9: for every input text and every column width `cols ≥ 1`, every
line returned by `wrap_text` is non-empty and at most `cols` long. -/
theorem wrap_text_lines_bounded (text : List Char) (cols : Nat) (hc : 1 ≤ cols) :
    ∀ s ∈ wrap_text text cols, s ≠ [] ∧ s.length ≤ cols := by
  intro s hs
  unfold wrap_text at hs
  rw [List.mem_flatten] at hs
  obtain ⟨l, hl, hsl⟩ := hs
  rw [List.mem_map] at hl
  obtain ⟨line, _, rfl⟩ := hl
  unfold hardSplit at hsl
  exact hardSplitF_sound cols hc line.length line le_rfl s hsl

/-- Witness for `wrap_text_lines_bounded` on the text
`"Temperature ok"` wrapped at 3 columns. -/
theorem wrap_text_lines_bounded_witness :
    (['T','e','m'] : List Char) ≠ [] ∧ (['T','e','m'] : List Char).length ≤ 3 :=
  wrap_text_lines_bounded ['T','e','m','p','e','r','a','t','u','r','e',' ','o','k'] 3
    (by decide) ['T','e','m'] (by decide)

end DhtFirmware
